import Mathlib

/-!
Shallow embedding of the TABMON species-validation dashboard
(NINAnor/tabmon_species_api) clip-selection and validation-persistence
logic, together with proofs of the specification claims about it.

The embedding follows the Python sources:
  src/queries.py, src/pro/queries.py, src/database/queries.py,
  src/shared/utils.py, src/utils.py, src/validation_handlers.py,
  src/normal/validation_handlers.py, src/handlers/validation_handlers.py,
  src/session_manager.py, src/dashboard.py.

External storage (S3 object listing / download) and the DuckDB query
engine are modelled relationally: a parquet dataset is a list of rows, a
CSV validation file is a list of records, and a fallible storage call is
a value of type `Except String α`.  Machine floats that the claims only
ever compare for equality or order (start times, confidences) are
modelled as `Nat`/`Int`.
-/

namespace Tabmon

/-- A (filename, start_time) pair: the identity of a clip for the purpose
of validation tracking. -/
abbrev Pair := String × Nat

/-- One row of the assigned-clips parquet dataset, as selected by
`get_assigned_clips_for_user` / the selection queries
(src/pro/queries.py lines 113-142, src/queries.py lines 95-123). -/
structure Clip where
  filename : String
  deployment_id : String
  start_time : Nat
  species_array : List String
  confidence_array : List Int
  uncertainty_array : List Int
  userID : String
deriving DecidableEq, Repr

/-- The (filename, start_time) pair of a clip, the key used everywhere
for validated-clip membership tests. -/
def Clip.pair (c : Clip) : Pair := (c.filename, c.start_time)

/-- `unvalidated = [clip for clip in all_clips if (clip["filename"],
clip["start_time"]) not in validated_clips]` (src/pro/queries.py
lines 195-198).  The Python set of validated pairs is modelled as a list
used only through membership. -/
def unvalidated_clips (all_clips : List Clip) (validated_clips : List Pair) : List Clip :=
  all_clips.filter (fun c => ! validated_clips.contains c.pair)

/-- `get_remaining_pro_clips_count` (src/pro/queries.py lines 224-235):
count of assigned clips whose pair is not in the validated set. -/
def get_remaining_pro_clips_count (all_clips : List Clip) (validated_clips : List Pair) : Nat :=
  (all_clips.countP (fun c => ! validated_clips.contains c.pair))

/-- The rows of the parquet dataset assigned to `user_id`
(`WHERE CAST(userID AS VARCHAR) = CAST(? AS VARCHAR)`). -/
def assigned_rows (table : List Clip) (user_id : String) : List Clip :=
  table.filter (fun c => c.userID == user_id)

/-- `_get_validated_clips_with_session` (src/queries.py lines 195-203):
the union of the persisted validated pairs and the pairs recorded in the
session state. -/
def validated_with_session (persisted session_validated : List Pair) : List Pair :=
  persisted ++ session_validated

/-- `get_remaining_pro_clips_count` (src/queries.py lines 293-327):
`SELECT COUNT(*) WHERE userID matches AND (fullPath, "start time")
NOT IN (validated pairs)`. -/
def db_get_remaining_pro_clips_count (table : List Clip) (user_id : String)
    (validated_clips : List Pair) : Nat :=
  (table.filter (fun c => c.userID == user_id && ! validated_clips.contains c.pair)).length

/-- Helper: the length of a filter with a negated predicate is the length
minus the length of the filter with the predicate itself. -/
theorem length_filter_not {α : Type} (p : α → Bool) (l : List α) :
    (l.filter (fun a => ! p a)).length = l.length - (l.filter p).length := by
  induction l with
  | nil => rfl
  | cons a l ih =>
    have hle := List.length_filter_le p l
    cases h : p a <;> simp [List.filter_cons, h, ih]
    all_goals omega

/-- Helper: filtering with a conjunction equals filtering twice. -/
theorem filter_and_eq {α : Type} (p q : α → Bool) (l : List α) :
    l.filter (fun a => p a && q a) = (l.filter p).filter q := by
  induction l with
  | nil => rfl
  | cons a l ih =>
    cases h : p a <;> cases h2 : q a <;> simp [List.filter_cons, h, h2, ih]

/-- C1: For every user, candidate set C of clips assigned to that user,
and set V of the validations recorded for that user (persisted plus
in-session), `get_remaining_pro_clips_count` returns `|C| - |C ∩ V|`,
the number of assigned clips whose (filename, start_time) pair is not in
the validated set.  Stated for both variants: the Python-side count of
src/pro/queries.py and the DuckDB count of src/queries.py (whose
validated set is the persisted set united with the session set). -/
theorem remaining_count_is_candidates_minus_validated
    (all_clips : List Clip) (V : List Pair)
    (table : List Clip) (user_id : String) (persisted session_validated : List Pair) :
    get_remaining_pro_clips_count all_clips V =
      all_clips.length - (all_clips.filter (fun c => V.contains c.pair)).length
    ∧ db_get_remaining_pro_clips_count table user_id
        (validated_with_session persisted session_validated) =
      (assigned_rows table user_id).length -
        ((assigned_rows table user_id).filter
          (fun c => (validated_with_session persisted session_validated).contains c.pair)).length := by
  constructor
  · rw [get_remaining_pro_clips_count, List.countP_eq_length_filter]
    exact length_filter_not _ all_clips
  · rw [db_get_remaining_pro_clips_count, assigned_rows,
      filter_and_eq (fun c => c.userID == user_id)
        (fun c => ! (validated_with_session persisted session_validated).contains c.pair) table]
    exact length_filter_not _ _

/-! ## Clip selection -/

/-- The value returned by `get_random_assigned_clip` in both variants:
`None`, a completion marker (`{"all_validated": True, "total_clips": n}`)
or a clip (a dict carrying the clip fields and `"all_validated": False`).
-/
inductive ClipResult where
  | nothing : ClipResult
  | completion (total_clips : Nat) : ClipResult
  | clip (c : Clip) : ClipResult
deriving DecidableEq, Repr

/-- `random.choice(seq)` draws index `_randbelow(len(seq))` from the
seeded PRNG; the PRNG draw is modelled as an arbitrary seed value reduced
modulo the sequence length, a deterministic function of the seed. -/
def choice_index (seed n : Nat) : Nat := seed % n

/-- `get_random_assigned_clip` (src/pro/queries.py lines 174-220): return
`None` when the user has no assigned clips, the completion marker when
every assigned clip is validated, otherwise a random unvalidated clip. -/
def get_random_assigned_clip (all_clips : List Clip) (validated_clips : List Pair)
    (seed : Nat) : ClipResult :=
  if all_clips.isEmpty then ClipResult.nothing
  else
    match unvalidated_clips all_clips validated_clips with
    | [] => ClipResult.completion all_clips.length
    | u :: us => ClipResult.clip ((u :: us).getD (choice_index seed (u :: us).length) u)

/-- The strict lexicographic order on (fullPath, "start time") used by
`ORDER BY fullPath, "start time"` in the DuckDB selection queries. -/
def keyLt (a b : Pair) : Bool :=
  decide (a.1 < b.1 ∨ (a.1 = b.1 ∧ a.2 < b.2))

/-- `ORDER BY fullPath, "start time" LIMIT 1 ... fetchone()`: the first
row under the lexicographic order (the earliest row among those with the
least key, matching a stable sort). -/
def firstByKey : List Clip → Option Clip
  | [] => Option.none
  | c :: cs =>
    match firstByKey cs with
    | Option.none => some c
    | some m => if keyLt m.pair c.pair then some m else some c

/-- `get_random_assigned_clip` (src/queries.py lines 206-290 and
src/database/queries.py lines 180-241): select the first assigned row not
excluded by the validated set, ordered by (fullPath, "start time"); when
none remains, count the rows of the user and report completion if the user has
any. -/
def db_get_random_assigned_clip (table : List Clip) (user_id : String)
    (validated_clips : List Pair) : ClipResult :=
  match firstByKey (table.filter
      (fun c => c.userID == user_id && ! validated_clips.contains c.pair)) with
  | some c => ClipResult.clip c
  | Option.none =>
    let total := (assigned_rows table user_id).length
    if total > 0 then ClipResult.completion total else ClipResult.nothing

/-! ### Order lemmas for the selection key -/

theorem keyLt_irrefl (a : Pair) : keyLt a a = false := by
  simp [keyLt]

theorem keyLt_asymm {a b : Pair} (h : keyLt a b = true) : keyLt b a = false := by
  simp only [keyLt, decide_eq_true_eq, decide_eq_false_iff_not] at h ⊢
  rcases h with h1 | ⟨h1, h2⟩
  · rintro (h3 | ⟨h3, h4⟩)
    · exact absurd (lt_trans h1 h3) (lt_irrefl a.1)
    · exact absurd h3 (ne_of_gt h1)
  · rintro (h3 | ⟨h3, h4⟩)
    · exact absurd h3 (by rw [h1]; exact lt_irrefl b.1)
    · exact absurd (lt_trans h2 h4) (lt_irrefl a.2)

theorem keyLt_false_trans {x m c : Pair} (h1 : keyLt x m = false)
    (h2 : keyLt m c = false) : keyLt x c = false := by
  simp only [keyLt, decide_eq_false_iff_not] at h1 h2 ⊢
  rintro (h3 | ⟨h3, h4⟩)
  · rcases lt_trichotomy x.1 m.1 with hc | hc | hc
    · exact h1 (Or.inl hc)
    · exact h2 (Or.inl (hc ▸ h3))
    · rcases lt_trichotomy m.1 c.1 with hd | hd | hd
      · exact h2 (Or.inl hd)
      · exact h1 (Or.inl (by rw [hd]; exact h3))
      · exact absurd (lt_trans h3 hd) (not_lt.mpr (le_of_lt hc))
  · rcases lt_trichotomy x.1 m.1 with hc | hc | hc
    · exact h1 (Or.inl hc)
    · rcases lt_trichotomy x.2 m.2 with hd | hd | hd
      · exact h1 (Or.inr ⟨hc, hd⟩)
      · exact h2 (Or.inr ⟨by rw [← hc, h3], by rw [← hd]; exact h4⟩)
      · exact h2 (Or.inr ⟨by rw [← hc, h3], lt_trans hd h4⟩)
    · exact h2 (Or.inl (by rw [← h3]; exact hc))

/-! ### Properties of `firstByKey` -/

theorem firstByKey_mem : ∀ {l : List Clip} {c : Clip}, firstByKey l = some c → c ∈ l := by
  intro l
  induction l with
  | nil => intro c h; simp [firstByKey] at h
  | cons a l ih =>
    intro c h
    rw [firstByKey] at h
    cases hf : firstByKey l with
    | none => rw [hf] at h; simp at h; simp [h]
    | some m =>
      rw [hf] at h
      by_cases hk : keyLt m.pair a.pair = true
      · simp [hk] at h
        exact List.mem_cons_of_mem a (ih (by rw [hf, h]))
      · simp [hk] at h
        simp [h]

theorem firstByKey_eq_none : ∀ {l : List Clip}, firstByKey l = Option.none → l = [] := by
  intro l h
  cases l with
  | nil => rfl
  | cons a as =>
    rw [firstByKey] at h
    cases hf : firstByKey as with
    | none => rw [hf] at h; simp at h
    | some m => rw [hf] at h; by_cases hk : keyLt m.pair a.pair = true <;> simp [hk] at h

theorem firstByKey_min : ∀ {l : List Clip} {c : Clip}, firstByKey l = some c →
    ∀ x ∈ l, keyLt x.pair c.pair = false := by
  intro l
  induction l with
  | nil => intro c h; simp [firstByKey] at h
  | cons a l ih =>
    intro c h x hx
    rw [firstByKey] at h
    cases hf : firstByKey l with
    | none =>
      rw [hf] at h
      simp at h
      have hl : l = [] := firstByKey_eq_none hf
      subst hl
      simp at hx
      rw [hx, ← h]
      exact keyLt_irrefl _
    | some m =>
      rw [hf] at h
      dsimp only at h
      by_cases hk : keyLt m.pair a.pair = true
      · rw [if_pos hk] at h
        have hmc : m = c := by injection h
        rcases List.mem_cons.mp hx with hxa | hxl
        · rw [hxa, ← hmc]; exact keyLt_asymm hk
        · exact hmc ▸ ih hf x hxl
      · rw [if_neg hk] at h
        have hac : a = c := by injection h
        simp only [Bool.not_eq_true] at hk
        have hmk : keyLt m.pair c.pair = false := hac ▸ hk
        rcases List.mem_cons.mp hx with hxa | hxl
        · rw [hxa, ← hac]; exact keyLt_irrefl _
        · exact keyLt_false_trans (ih hf x hxl) hmk

/-- Helper: `getD` returns an element of the list or the default. -/
theorem getD_mem_or_eq {α : Type} : ∀ (l : List α) (i : Nat) (d : α),
    l.getD i d ∈ l ∨ l.getD i d = d := by
  intro l
  induction l with
  | nil => intro i d; right; rfl
  | cons a l ih =>
    intro i d
    cases i with
    | zero => left; simp
    | succ n =>
      rcases ih n d with h | h
      · left; simp only [List.getD_cons_succ]; exact List.mem_cons_of_mem a h
      · right; simpa using h

/-- Concrete clips used to instantiate the claim theorems. -/
def clipA : Clip :=
  { filename := "proj_tabmon/site1_2024.wav", deployment_id := "dep1", start_time := 42,
    species_array := ["Parus major"], confidence_array := [90], uncertainty_array := [5],
    userID := "user001" }

def clipB : Clip :=
  { filename := "proj_tabmon/site2_2024.wav", deployment_id := "dep2", start_time := 7,
    species_array := ["Erithacus rubecula"], confidence_array := [80], uncertainty_array := [3],
    userID := "user001" }

/-- C3: For every user whose assigned clip set is non-empty and whose
every assigned clip is already validated, the selection operation
(`get_random_assigned_clip`, in both the Python and the DuckDB variant)
returns the completion value (`all_validated: True` with the total clip
count) rather than raising an exception. -/
theorem selection_reports_completion_when_all_validated
    (all_clips : List Clip) (V : List Pair) (seed : Nat)
    (table : List Clip) (user_id : String) :
    (all_clips ≠ [] → (∀ c ∈ all_clips, V.contains c.pair = true) →
      get_random_assigned_clip all_clips V seed = ClipResult.completion all_clips.length)
    ∧ (assigned_rows table user_id ≠ [] →
        (∀ c ∈ assigned_rows table user_id, V.contains c.pair = true) →
        db_get_random_assigned_clip table user_id V =
          ClipResult.completion (assigned_rows table user_id).length) := by
  constructor
  · intro hne hall
    have he : all_clips.isEmpty = false := by
      cases all_clips with
      | nil => exact absurd rfl hne
      | cons a l => rfl
    have hu : unvalidated_clips all_clips V = [] := by
      rw [unvalidated_clips, List.filter_eq_nil_iff]
      intro c hc
      simpa using hall c hc
    rw [get_random_assigned_clip, he, hu]
    simp
  · intro hne hall
    have hrem : table.filter (fun c => c.userID == user_id && ! V.contains c.pair) = [] := by
      rw [filter_and_eq, List.filter_eq_nil_iff]
      intro c hc
      simpa using hall c hc
    have hpos : 0 < (assigned_rows table user_id).length := List.length_pos.mpr hne
    rw [db_get_random_assigned_clip, hrem]
    simp [firstByKey, hpos]

/-- C4: For every user and every validated set computed for that user,
any clip returned by the selection operation (`get_random_assigned_clip`,
either variant) has a (filename, start_time) pair that is not a member of
that validated set: a clip already validated by the same identity is
never selected for showing again. -/
theorem selection_excludes_validated
    (all_clips : List Clip) (V : List Pair) (seed : Nat)
    (table : List Clip) (user_id : String) (c : Clip) :
    (get_random_assigned_clip all_clips V seed = ClipResult.clip c →
      V.contains c.pair = false)
    ∧ (db_get_random_assigned_clip table user_id V = ClipResult.clip c →
      V.contains c.pair = false) := by
  constructor
  · intro h
    rw [get_random_assigned_clip] at h
    by_cases he : all_clips.isEmpty
    · rw [if_pos he] at h; simp at h
    · rw [if_neg he] at h
      cases hu : unvalidated_clips all_clips V with
      | nil => rw [hu] at h; simp at h
      | cons u0 us =>
        rw [hu] at h
        dsimp only at h
        have hc : (u0 :: us).getD (choice_index seed (u0 :: us).length) u0 = c := by
          injection h
        have hmem : c ∈ u0 :: us := by
          rcases getD_mem_or_eq (u0 :: us) (choice_index seed (u0 :: us).length) u0 with hm | hm
          · exact hc ▸ hm
          · rw [← hc, hm]; exact List.mem_cons_self _ _
        have hmem2 : c ∈ unvalidated_clips all_clips V := hu ▸ hmem
        have hp := (List.mem_filter.mp (by rw [unvalidated_clips] at hmem2; exact hmem2)).2
        simpa using hp
  · intro h
    rw [db_get_random_assigned_clip] at h
    cases hf : firstByKey (table.filter
        (fun cl => cl.userID == user_id && ! V.contains cl.pair)) with
    | none =>
      rw [hf] at h
      dsimp only at h
      by_cases ht : 0 < (assigned_rows table user_id).length <;> simp [ht] at h
    | some m =>
      rw [hf] at h
      dsimp only at h
      have hmc : m = c := by injection h
      have hm := firstByKey_mem hf
      have hp := (List.mem_filter.mp hm).2
      rw [hmc] at hp
      simp at hp
      simpa using hp.2

/-- C5: For every fixed random seed and every unchanged unvalidated clip
set, two runs of the selection operation pick the same clip (the Python
variant is a deterministic function of the seed and the unvalidated
list), and in the DuckDB variant the returned clip is determined by the
ordering by (fullPath, start time) alone: it is the least remaining row
under that order. -/
theorem selection_reproducible :
    (∀ (a1 : List Clip) (V1 : List Pair) (a2 : List Clip) (V2 : List Pair) (seed : Nat),
        unvalidated_clips a1 V1 = unvalidated_clips a2 V2 →
        unvalidated_clips a1 V1 ≠ [] →
        get_random_assigned_clip a1 V1 seed = get_random_assigned_clip a2 V2 seed)
    ∧ (∀ (table : List Clip) (user_id : String) (V : List Pair) (c : Clip),
        db_get_random_assigned_clip table user_id V = ClipResult.clip c →
        ∀ x ∈ table.filter (fun cl => cl.userID == user_id && ! V.contains cl.pair),
          keyLt x.pair c.pair = false) := by
  constructor
  · intro a1 V1 a2 V2 seed heq hne
    have h1 : a1.isEmpty = false := by
      cases a1 with
      | nil => exact absurd rfl hne
      | cons _ _ => rfl
    have h2 : a2.isEmpty = false := by
      cases a2 with
      | nil => exact absurd (heq.trans rfl) hne
      | cons _ _ => rfl
    rw [get_random_assigned_clip, get_random_assigned_clip, h1, h2, ← heq]
    cases hu : unvalidated_clips a1 V1 with
    | nil => exact absurd hu hne
    | cons u0 us => rfl
  · intro table user_id V c h x hx
    rw [db_get_random_assigned_clip] at h
    cases hf : firstByKey (table.filter
        (fun cl => cl.userID == user_id && ! V.contains cl.pair)) with
    | none =>
      rw [hf] at h
      dsimp only at h
      by_cases ht : 0 < (assigned_rows table user_id).length <;> simp [ht] at h
    | some m =>
      rw [hf] at h
      dsimp only at h
      have hmc : m = c := by injection h
      exact hmc ▸ firstByKey_min hf x hx

theorem selection_reports_completion_when_all_validated_witness :
    get_random_assigned_clip [clipA] [clipA.pair] 0 = ClipResult.completion 1
    ∧ db_get_random_assigned_clip [clipA] "user001" [clipA.pair] = ClipResult.completion 1 :=
  ⟨(selection_reports_completion_when_all_validated [clipA] [clipA.pair] 0 [clipA] "user001").1
      (by decide) (by decide),
   (selection_reports_completion_when_all_validated [clipA] [clipA.pair] 0 [clipA] "user001").2
      (by decide) (by decide)⟩

theorem selection_excludes_validated_witness :
    ([clipB.pair] : List Pair).contains clipA.pair = false
    ∧ ([clipA.pair] : List Pair).contains clipB.pair = false :=
  ⟨(selection_excludes_validated [clipA, clipB] [clipB.pair] 0 [] "" clipA).1 (by decide),
   (selection_excludes_validated [] [clipA.pair] 0 [clipA, clipB] "user001" clipB).2 (by decide)⟩

theorem selection_reproducible_witness :
    get_random_assigned_clip [clipA] [] 0 = get_random_assigned_clip [clipA] [] 0
    ∧ keyLt clipA.pair clipA.pair = false :=
  ⟨selection_reproducible.1 [clipA] [] [clipA] [] 0 rfl (by decide),
   selection_reproducible.2 [clipA] "user001" [] clipA (by decide) clipA (by decide)⟩

/-! ## Validation records and persistence -/

/-- The `validation_data` dict built by `_handle_validation_submission`
(src/normal/validation_handlers.py lines 98-111). -/
structure NormalValidation where
  filename : String
  country : String
  site : String
  device_id : String
  species : String
  start_time : Nat
  confidence : Int
  validation_response : String
  user_validation : String
  user_confidence : String
  timestamp : Nat
deriving DecidableEq, Repr

/-- The `validation_data` dict built by `_handle_pro_validation_submission`
(src/validation_handlers.py lines 176-189). -/
structure ProValidation where
  filename : String
  userID : String
  deployment_id : String
  birdnet_species_detected : List String
  birdnet_confidences : List Int
  birdnet_uncertainties : List Int
  start_time : Nat
  identified_species : List String
  species_count : Nat
  user_confidence : String
  user_notes : String
  timestamp : Nat
deriving DecidableEq, Repr

/-- A Pro validation record as stored in the CSV: the
`identified_species` list is serialised with `json.dumps`
(src/shared/utils.py lines 326-331). -/
structure ProValidationStored where
  filename : String
  userID : String
  deployment_id : String
  birdnet_species_detected : List String
  birdnet_confidences : List Int
  birdnet_uncertainties : List Int
  start_time : Nat
  identified_species : String
  species_count : Nat
  user_confidence : String
  user_notes : String
  timestamp : Nat
deriving DecidableEq, Repr

/-- `json.dumps` on a list of plain strings (default separators). -/
def json_dumps (l : List String) : String :=
  "[" ++ String.intercalate ", " (l.map (fun s => "\"" ++ s ++ "\"")) ++ "]"

/-- The stored form of a Pro validation: the copy made by
`save_pro_validation_response` with `identified_species` serialised. -/
def ProValidation.toStored (v : ProValidation) : ProValidationStored :=
  { filename := v.filename, userID := v.userID, deployment_id := v.deployment_id,
    birdnet_species_detected := v.birdnet_species_detected,
    birdnet_confidences := v.birdnet_confidences,
    birdnet_uncertainties := v.birdnet_uncertainties,
    start_time := v.start_time,
    identified_species := json_dumps v.identified_species,
    species_count := v.species_count, user_confidence := v.user_confidence,
    user_notes := v.user_notes, timestamp := v.timestamp }

/-- `save_validation_response` (src/shared/utils.py lines 131-187): the
per-session CSV is `Option (List _)` (`Option.none` = the object does not
exist).  The inner try first calls `head_object`, then downloads the
existing file, reads it, concatenates the new one-row frame after the
existing rows and re-uploads; its catch-all `except` (commented "File
doesn't exist yet, create new one") is reached both when the file does
not exist and when the download/read of an EXISTING file fails, and in
either case uploads a file holding only the new record — on the second
path overwriting the existing file.  `download_ok` is the outcome of the
download/read of an existing file; the final upload is modelled as
reliable.  Returns the new file contents and the `True` result. -/
def save_validation_response (file : Option (List NormalValidation))
    (download_ok : Bool) (validation_data : NormalValidation) :
    Option (List NormalValidation) × Bool :=
  match file with
  | some existing_df =>
    if download_ok then (some (existing_df ++ [validation_data]), true)
    else (some [validation_data], true)
  | Option.none => (some [validation_data], true)

/-- `save_pro_validation_response` (src/shared/utils.py lines 302-368):
identical logic, after serialising the species list; the catch-all
`except` on a failed download/read of an existing Pro session file
likewise re-uploads only the new record. -/
def save_pro_validation_response (file : Option (List ProValidationStored))
    (download_ok : Bool) (validation_data : ProValidation) :
    Option (List ProValidationStored) × Bool :=
  match file with
  | some existing_df =>
    if download_ok then (some (existing_df ++ [validation_data.toStored]), true)
    else (some [validation_data.toStored], true)
  | Option.none => (some [validation_data.toStored], true)

/-- A Normal validation record already stored in a session file. -/
def recStored : NormalValidation :=
  { filename := "siteA_0101.wav", country := "Norway", site := "Site A",
    device_id := "dev1", species := "Parus major", start_time := 10, confidence := 80,
    validation_response := "Yes", user_validation := "", user_confidence := "High",
    timestamp := 1 }

/-- A Normal validation record being submitted. -/
def recNew : NormalValidation :=
  { filename := "siteA_0102.wav", country := "Norway", site := "Site A",
    device_id := "dev1", species := "Parus major", start_time := 25, confidence := 70,
    validation_response := "No", user_validation := "noise", user_confidence := "Moderate",
    timestamp := 2 }

/-- A Pro validation record already stored in a session file. -/
def proStored : ProValidation :=
  { filename := "siteB_0101.wav", userID := "user001", deployment_id := "dep1",
    birdnet_species_detected := ["Parus major"], birdnet_confidences := [90],
    birdnet_uncertainties := [5], start_time := 12,
    identified_species := ["Parus major"], species_count := 1,
    user_confidence := "High", user_notes := "", timestamp := 3 }

/-- A Pro validation record being submitted. -/
def proNew : ProValidation :=
  { filename := "siteB_0102.wav", userID := "user001", deployment_id := "dep1",
    birdnet_species_detected := ["Erithacus rubecula"], birdnet_confidences := [60],
    birdnet_uncertainties := [9], start_time := 33,
    identified_species := ["NONE_DETECTED"], species_count := 1,
    user_confidence := "Low", user_notes := "wind", timestamp := 4 }

/-- C6: the code contradicts this claim.  On the ordinary path (the
existing session file downloads and reads back successfully) saving does
append exactly one new record and leaves the stored records unchanged —
but when the download or read of an EXISTING session file fails, the
catch-all `except` branch of `save_validation_response` /
`save_pro_validation_response` (src/shared/utils.py lines 172-181 and
354-363), whose own comment says "File doesn't exist yet, create new
one", uploads a file holding only the new record: the previously stored
records are deleted, although the claim (and the data model the comments
describe) say a stored validation record is never mutated or deleted.
Evaluated below at a file holding one prior record. -/
theorem failed_download_save_deletes_stored_records :
    (save_validation_response (some [recStored]) true recNew).1
      = some [recStored, recNew]
    ∧ (save_validation_response (some [recStored]) false recNew).1 = some [recNew]
    ∧ recStored ∉ ((save_validation_response (some [recStored]) false recNew).1.getD [])
    ∧ (save_pro_validation_response (some [proStored.toStored]) true proNew).1
      = some [proStored.toStored, proNew.toStored]
    ∧ (save_pro_validation_response (some [proStored.toStored]) false proNew).1
      = some [proNew.toStored]
    ∧ proStored.toStored ∉
        ((save_pro_validation_response (some [proStored.toStored]) false proNew).1.getD []) := by
  refine ⟨rfl, rfl, ?_, rfl, rfl, ?_⟩ <;> decide

/-! ## Error handling of reads over external storage -/

/-- `get_validated_clips` (src/shared/utils.py lines 190-252): list and
read every validation CSV, filter for the same country, device and
species, and collect (filename, start_time) pairs; any failure of the
storage interaction yields the empty set.  The whole storage interaction
is the `fetch` argument. -/
def get_validated_clips (fetch : Except String (List NormalValidation))
    (country device_id species : String) : List Pair :=
  match fetch with
  | Except.error _ => []
  | Except.ok rows =>
    (rows.filter (fun r => r.country == country && r.device_id == device_id &&
        r.species == species)).map (fun r => (r.filename, r.start_time))

/-- `check_user_has_annotations` (src/queries.py lines 37-57): run the
COUNT query and compare with zero; any failure yields `False`. -/
def check_user_has_annotations (fetch : Except String (Option Nat)) : Bool :=
  match fetch with
  | Except.error _ => false
  | Except.ok (some n) => decide (n > 0)
  | Except.ok Option.none => false

/-- `get_top_species_for_database` (src/pro/queries.py lines 77-96): the
query is executed with NO surrounding try/except, so a failure of the
underlying query call propagates to the caller; on success the first
column of each row is returned. -/
def get_top_species_for_database (fetch : Except String (List (String × Nat))) :
    Except String (List String) :=
  match fetch with
  | Except.error e => Except.error e
  | Except.ok rows => Except.ok (rows.map (fun r => r.1))

/-- `get_validated_pro_clips` (src/queries.py lines 126-192): read all
Pro validation files, filter by userID, collect pairs; any failure yields
the empty set. -/
def get_validated_pro_clips (user_id : String)
    (fetch : Except String (List ProValidationStored)) : List Pair :=
  match fetch with
  | Except.error _ => []
  | Except.ok rows =>
    (rows.filter (fun r => r.userID == user_id)).map (fun r => (r.filename, r.start_time))

/-- `load_pro_validation_responses` (src/shared/utils.py lines 371-430):
combine all Pro validation files; `None` when there are no files or on
any failure. -/
def load_pro_validation_responses (fetch : Except String (List ProValidationStored)) :
    Option (List ProValidationStored) :=
  match fetch with
  | Except.error _ => Option.none
  | Except.ok rows => if rows.isEmpty then Option.none else some rows

/-- C7 counterexample: the claim says every read operation over external
storage catches any failure, but `get_top_species_for_database`
(src/pro/queries.py lines 77-96) has no try/except: on a failing storage
call it propagates the error to its caller and returns no fallback
value. -/
theorem top_species_fetch_propagates_failure :
    get_top_species_for_database (Except.error "S3 connection failed") =
      Except.error "S3 connection failed"
    ∧ (get_top_species_for_database (Except.error "S3 connection failed")).isOk = false :=
  ⟨rfl, rfl⟩

/-- C7 (amended): the wrapped read operations — reading validation files
(`get_validated_clips`, `get_validated_pro_clips`,
`load_pro_validation_responses`) and counting annotations
(`check_user_has_annotations`) — catch any failure of the underlying
storage call and return an empty fallback value (empty set, False, or
None); the top-species and assigned-clips queries are not wrapped. -/
theorem wrapped_reads_fall_back_to_empty
    (msg country device_id species user_id : String) :
    get_validated_clips (Except.error msg) country device_id species = []
    ∧ check_user_has_annotations (Except.error msg) = false
    ∧ get_validated_pro_clips user_id (Except.error msg) = []
    ∧ load_pro_validation_responses (Except.error msg) = Option.none :=
  ⟨rfl, rfl, rfl, rfl⟩

/-! ## The Pro validation form -/

/-- The checklist part of `render_pro_validation_form`
(src/validation_handlers.py lines 85-105): each displayed species is
appended to `selected_species` when its checkbox is ticked; when the
"None of the above" box is checked the selection is replaced by the
single `NONE_DETECTED` marker. -/
def checklist_selected (species_data : List String) (checks : List Bool)
    (none_of_above : Bool) : List String :=
  let selected_species := (species_data.zip checks).filterMap
    (fun sc => if sc.2 then some sc.1 else Option.none)
  if none_of_above then ["NONE_DETECTED"] else selected_species

/-- `additional_species = [s.strip() for s in other_species.split(",")
if s.strip()]`, guarded by `if other_species`
(src/validation_handlers.py lines 168-170). -/
def parse_additional_species (other_species : String) : List String :=
  if other_species = "" then []
  else ((other_species.splitOn ",").map (fun s => s.trim)).filter (fun s => !(s == ""))

/-- The `validation_data` record built by
`_handle_pro_validation_submission` (src/validation_handlers.py lines
167-189): checklist species followed by the parsed additional species,
with `species_count` the length of the combined list. -/
def build_pro_validation_data (result : Clip) (user_id : String)
    (selected_species : List String) (other_species : String)
    (user_notes user_confidence : String) (timestamp : Nat) : ProValidation :=
  let additional_species := parse_additional_species other_species
  let all_identified_species := selected_species ++ additional_species
  { filename := result.filename, userID := user_id,
    deployment_id := result.deployment_id,
    birdnet_species_detected := result.species_array,
    birdnet_confidences := result.confidence_array,
    birdnet_uncertainties := result.uncertainty_array,
    start_time := result.start_time,
    identified_species := all_identified_species,
    species_count := all_identified_species.length,
    user_confidence := user_confidence, user_notes := user_notes,
    timestamp := timestamp }

/-- C9: For every checklist submission in which the "None of the above"
box is checked, the species recorded from the checklist is exactly the
single marker ["NONE_DETECTED"], regardless of which individual species
boxes were also checked; manually entered additional species are appended
after it, and the recorded species_count equals the length of the
combined identified-species list. -/
theorem none_of_above_overrides_checklist
    (species_data : List String) (checks : List Bool) (other_species : String)
    (result : Clip) (user_id user_notes user_confidence : String) (ts : Nat) :
    checklist_selected species_data checks true = ["NONE_DETECTED"]
    ∧ (build_pro_validation_data result user_id (checklist_selected species_data checks true)
        other_species user_notes user_confidence ts).identified_species
      = "NONE_DETECTED" :: parse_additional_species other_species
    ∧ (build_pro_validation_data result user_id (checklist_selected species_data checks true)
        other_species user_notes user_confidence ts).species_count
      = ("NONE_DETECTED" :: parse_additional_species other_species).length := by
  refine ⟨rfl, ?_, ?_⟩ <;> simp [build_pro_validation_data, checklist_selected]

/-! ## Pro-mode session state -/

/-- The Pro-mode state relevant to validation tracking
(src/session_manager.py, src/queries.py, src/validation_handlers.py): the
per-session validation file in object storage, the `st.cache_data`
snapshot of `get_validated_pro_clips` (`Option.none` = cold / expired),
the `pro_validated_clips_session` set, and `pro_current_clip`. -/
structure ProState where
  file : Option (List ProValidationStored)
  cache : Option (List Pair)
  session_validated : List Pair
  current_clip : Option Clip
deriving DecidableEq, Repr

/-- The pairs recorded in the validation file for this user: what
`get_validated_pro_clips` computes on a cache miss
(src/queries.py lines 126-192). -/
def stored_pairs (user_id : String) (file : Option (List ProValidationStored)) : List Pair :=
  ((file.getD []).filter (fun r => r.userID == user_id)).map
    (fun r => (r.filename, r.start_time))

/-- `get_validated_pro_clips` under `@st.cache_data(ttl=300)`: within the
ttl the cached snapshot is returned unchanged; a cold cache reads the
store and warms the cache. -/
def get_validated_pro_clips_cached (user_id : String) (s : ProState) :
    List Pair × ProState :=
  match s.cache with
  | some v => (v, s)
  | Option.none =>
    let v := stored_pairs user_id s.file
    (v, { s with cache := some v })

/-- `_get_validated_clips_with_session` (src/queries.py lines 195-203)
acting on the session state. -/
def get_validated_clips_with_session (user_id : String) (s : ProState) :
    List Pair × ProState :=
  let vs := get_validated_pro_clips_cached user_id s
  (validated_with_session vs.1 vs.2.session_validated, vs.2)

/-- One selection step: `get_or_load_pro_clip` with `pro_current_clip =
None` calls `get_random_assigned_clip` (src/session_manager.py lines
60-70, src/queries.py lines 206-290) and stores the result as the
current clip. -/
def pro_select_next (table : List Clip) (user_id : String) (s : ProState) :
    ClipResult × ProState :=
  let vs := get_validated_clips_with_session user_id s
  let r := db_get_random_assigned_clip table user_id vs.1
  (r, { vs.2 with current_clip := match r with
                  | ClipResult.clip c => some c
                  | _ => Option.none })

/-- `_handle_pro_validation_submission` (src/validation_handlers.py lines
147-199): if no confidence rating was given, show an error and return
with nothing saved; otherwise build the validation record, save it to
the session file, and clear the current clip.  The handler leaves
`pro_validated_clips_session` untouched and does not invalidate the
`get_validated_pro_clips` cache. -/
def handle_pro_validation_submission (s : ProState) (result : Clip) (user_id : String)
    (selected_species : List String) (other_species user_notes : String)
    (user_confidence : Option String) (download_ok : Bool) (timestamp : Nat) : ProState :=
  match user_confidence with
  | Option.none => s
  | some conf =>
    let validation_data := build_pro_validation_data result user_id selected_species
      other_species user_notes conf timestamp
    { s with file := (save_pro_validation_response s.file download_ok validation_data).1,
             current_clip := Option.none }

/-- C2: the code contradicts this claim.  Scenario evaluated below: user
"user001" has the single assigned clip `clipA`; the first selection warms
the validated-clips cache (empty store) and shows `clipA`; the user
submits a validation for `clipA` with confidence "High"; the submission
is persisted to the session file, yet the immediately following
selection call in the same session returns the very same clip, because
the handler neither records the pair in `pro_validated_clips_session`
nor invalidates the ttl cache. -/
theorem validated_clip_reselected_in_same_session :
    stored_pairs "user001"
      (handle_pro_validation_submission
        (pro_select_next [clipA] "user001"
          { file := Option.none, cache := Option.none, session_validated := [],
            current_clip := Option.none }).2
        clipA "user001" ["Parus major"] "" "" (some "High") true 1700000000).file
      = [clipA.pair]
    ∧ (pro_select_next [clipA] "user001"
        (handle_pro_validation_submission
          (pro_select_next [clipA] "user001"
            { file := Option.none, cache := Option.none, session_validated := [],
              current_clip := Option.none }).2
          clipA "user001" ["Parus major"] "" "" (some "High") true 1700000000)).1
      = ClipResult.clip clipA :=
  ⟨rfl, rfl⟩

/-! ## Normal-mode submission -/

/-- A Normal-mode detection row as held in `current_clip`
(filename, start time and model confidence). -/
structure DetectionClip where
  filename : String
  start_time : Nat
  confidence : Int
deriving DecidableEq, Repr

/-- The sidebar selections used by the Normal-mode validation form. -/
structure Selections where
  country : String
  site_name : String
  device : String
  species : String
deriving DecidableEq, Repr

/-- The `validation_data` dict of `_handle_validation_submission`
(src/normal/validation_handlers.py lines 99-111). -/
def build_validation_data (result : DetectionClip) (sel : Selections)
    (validation_response user_validation user_confidence : String)
    (timestamp : Nat) : NormalValidation :=
  { filename := result.filename, country := sel.country, site := sel.site_name,
    device_id := sel.device, species := sel.species, start_time := result.start_time,
    confidence := result.confidence, validation_response := validation_response,
    user_validation := user_validation, user_confidence := user_confidence,
    timestamp := timestamp }

/-- The Normal-mode state touched by the submission handler: the session
validation file and the current clip. -/
structure NormalState where
  file : Option (List NormalValidation)
  current_clip : Option DetectionClip
deriving DecidableEq, Repr

/-- `_handle_validation_submission` (src/normal/validation_handlers.py
lines 85-118): save only when both the Yes/No/Unsure response and the
confidence rating are present; otherwise show an error and change
nothing. -/
def handle_validation_submission (s : NormalState) (result : DetectionClip)
    (sel : Selections) (validation_response : Option String) (user_validation : String)
    (user_confidence : Option String) (download_ok : Bool) (timestamp : Nat) : NormalState :=
  match validation_response, user_confidence with
  | some vr, some conf =>
    { s with file := (save_validation_response s.file download_ok
        (build_validation_data result sel vr user_validation conf timestamp)).1 }
  | _, _ => s

/-- C8: For every submission in which the confidence rating of the user is
absent (and, in normal mode, also when the Yes/No/Unsure response is
absent), the submission handler reports an error and returns without
saving anything and without changing the current-clip state of the session:
the whole state is returned unchanged. -/
theorem rejected_submission_leaves_state_unchanged
    (s : ProState) (result : Clip) (user_id : String) (selected : List String)
    (other notes : String) (dl : Bool) (ts : Nat)
    (ns : NormalState) (dresult : DetectionClip) (sel : Selections)
    (vr uc : Option String) (uv : String) (ts2 : Nat) :
    handle_pro_validation_submission s result user_id selected other notes Option.none dl ts
      = s
    ∧ handle_validation_submission ns dresult sel Option.none uv uc dl ts2 = ns
    ∧ handle_validation_submission ns dresult sel vr uv Option.none dl ts2 = ns := by
  refine ⟨rfl, ?_, ?_⟩
  · cases uc <;> rfl
  · cases vr <;> rfl

/-! ## Species display names -/

/-- Python dict assignment `species_map[k] = v`: overwrite the entry when
the key is present, otherwise append the new binding. -/
def dict_insert (d : List (String × String)) (k v : String) : List (String × String) :=
  if d.any (fun p => p.1 == k) then
    d.map (fun p => if p.1 == k then (k, v) else p)
  else d ++ [(k, v)]

/-- The display key chosen for one species by `get_species_display_names`
(src/utils.py lines 234-243): the first translation row whose
Scientific_Name matches, its value in the selected language column when
that column exists and the cell is not NaN, and the scientific name
itself in every fallback case.  `langPresent` models
`language_code in translation_row.columns`; a NaN cell is `Option.none`.
-/
def display_name_for (translations : List (String × Option String)) (langPresent : Bool)
    (species : String) : String :=
  match translations.find? (fun row => row.1 == species) with
  | some row =>
    if langPresent then
      match row.2 with
      | some translated_name => translated_name
      | Option.none => species
    else species
  | Option.none => species

/-- `get_species_display_names` (src/utils.py lines 226-245 and
src/shared/utils.py lines 275-294): identity mapping for
"Scientific_Name", otherwise a dict from display name to scientific
name built species by species. -/
def get_species_display_names (translations : List (String × Option String))
    (langPresent : Bool) (species_list : List String) (language_code : String) :
    List (String × String) :=
  if language_code = "Scientific_Name" then
    species_list.foldl (fun species_map species => dict_insert species_map species species) []
  else
    species_list.foldl (fun species_map species =>
      dict_insert species_map (display_name_for translations langPresent species) species) []

theorem mem_dict_insert {d : List (String × String)} {k v k2 v2 : String}
    (h : (k2, v2) ∈ dict_insert d k v) : (k2, v2) ∈ d ∨ (k2 = k ∧ v2 = v) := by
  rw [dict_insert] at h
  by_cases ha : d.any (fun p => p.1 == k) = true
  · rw [if_pos ha] at h
    rcases List.mem_map.mp h with ⟨p, hp, he⟩
    by_cases hpk : (p.1 == k) = true
    · rw [if_pos hpk] at he
      right
      have h4 := he.symm
      rw [Prod.mk.injEq] at h4
      exact h4
    · rw [if_neg hpk] at he
      left
      exact he ▸ hp
  · rw [if_neg ha] at h
    rcases List.mem_append.mp h with h2 | h2
    · left; exact h2
    · right; simpa using h2

theorem mem_foldl_dict_insert (keyf : String → String) :
    ∀ (l : List String) (d : List (String × String)) (k v : String),
    (k, v) ∈ l.foldl (fun m sp => dict_insert m (keyf sp) sp) d →
    (k, v) ∈ d ∨ (v ∈ l ∧ k = keyf v) := by
  intro l
  induction l with
  | nil => intro d k v h; left; exact h
  | cons a l ih =>
    intro d k v h
    rw [List.foldl_cons] at h
    rcases ih _ k v h with h2 | h2
    · rcases mem_dict_insert h2 with h3 | h3
      · left; exact h3
      · right
        rcases h3 with ⟨hk, hv⟩
        subst hv
        exact ⟨List.mem_cons_self _ _, hk⟩
    · right; exact ⟨List.mem_cons_of_mem a h2.1, h2.2⟩

theorem self_mem_dict_insert (d : List (String × String)) (k : String) :
    (k, k) ∈ dict_insert d k k := by
  rw [dict_insert]
  by_cases ha : d.any (fun p => p.1 == k) = true
  · rw [if_pos ha]
    rcases List.any_eq_true.mp ha with ⟨p, hp, hpk⟩
    exact List.mem_map.mpr ⟨p, hp, by rw [if_pos hpk]⟩
  · rw [if_neg ha]
    exact List.mem_append.mpr (Or.inr (by simp))

theorem diag_mem_dict_insert {d : List (String × String)} {k2 : String}
    (h : (k2, k2) ∈ d) (k : String) : (k2, k2) ∈ dict_insert d k k := by
  rw [dict_insert]
  by_cases ha : d.any (fun p => p.1 == k) = true
  · rw [if_pos ha]
    by_cases hk : k2 = k
    · subst hk
      exact List.mem_map.mpr ⟨(k2, k2), h, by simp⟩
    · exact List.mem_map.mpr ⟨(k2, k2), h, by simp [hk]⟩
  · rw [if_neg ha]
    exact List.mem_append.mpr (Or.inl h)

theorem identity_fold_mem : ∀ (l : List String) (d : List (String × String)) (s : String),
    (s ∈ l ∨ (s, s) ∈ d) →
    (s, s) ∈ l.foldl (fun m sp => dict_insert m sp sp) d := by
  intro l
  induction l with
  | nil =>
    intro d s h
    rcases h with h | h
    · simp at h
    · exact h
  | cons a l ih =>
    intro d s h
    rw [List.foldl_cons]
    apply ih
    rcases h with h | h
    · rcases List.mem_cons.mp h with h2 | h2
      · right; subst h2; exact self_mem_dict_insert d s
      · left; exact h2
    · right; exact diag_mem_dict_insert h a

/-- C10: For every species list and language code,
`get_species_display_names` returns a mapping whose every value is an
element of the input list, and when the language code is
"Scientific_Name" the mapping is exactly the identity on the input list:
every entry is of shape (s, s) with s from the list, and every s from
the list has the entry (s, s). -/
theorem display_names_map_into_species_list :
    (∀ (translations : List (String × Option String)) (langPresent : Bool)
        (species_list : List String) (language_code : String) (k v : String),
        (k, v) ∈ get_species_display_names translations langPresent species_list language_code →
        v ∈ species_list)
    ∧ (∀ (translations : List (String × Option String)) (langPresent : Bool)
        (species_list : List String) (k v : String),
        (k, v) ∈ get_species_display_names translations langPresent species_list
            "Scientific_Name" → k = v ∧ v ∈ species_list)
    ∧ (∀ (translations : List (String × Option String)) (langPresent : Bool)
        (species_list : List String) (s : String), s ∈ species_list →
        (s, s) ∈ get_species_display_names translations langPresent species_list
            "Scientific_Name") := by
  refine ⟨?_, ?_, ?_⟩
  · intro translations langPresent species_list language_code k v h
    rw [get_species_display_names] at h
    by_cases hl : language_code = "Scientific_Name"
    · rw [if_pos hl] at h
      rcases mem_foldl_dict_insert (fun sp => sp) species_list [] k v h with h2 | h2
      · simp at h2
      · exact h2.1
    · rw [if_neg hl] at h
      rcases mem_foldl_dict_insert (display_name_for translations langPresent)
          species_list [] k v h with h2 | h2
      · simp at h2
      · exact h2.1
  · intro translations langPresent species_list k v h
    rw [get_species_display_names, if_pos rfl] at h
    rcases mem_foldl_dict_insert (fun sp => sp) species_list [] k v h with h2 | h2
    · simp at h2
    · exact ⟨h2.2, h2.1⟩
  · intro translations langPresent species_list s hs
    rw [get_species_display_names, if_pos rfl]
    exact identity_fold_mem species_list [] s (Or.inl hs)

theorem display_names_map_into_species_list_witness :
    "Parus major" ∈ ["Parus major"]
    ∧ ("Great Tit" = "Great Tit" ∧ "Great Tit" ∈ ["Great Tit"])
    ∧ ("Parus major", "Parus major") ∈ get_species_display_names
        [("Parus major", some "Great Tit")] true ["Parus major"] "Scientific_Name" :=
  ⟨display_names_map_into_species_list.1 [("Parus major", some "Great Tit")] true
      ["Parus major"] "en" "Great Tit" "Parus major" (by decide),
   display_names_map_into_species_list.2.1 [("Parus major", some "Great Tit")] true
      ["Great Tit"] "Great Tit" "Great Tit" (by decide),
   display_names_map_into_species_list.2.2 [("Parus major", some "Great Tit")] true
      ["Parus major"] "Parus major" (by decide)⟩

end Tabmon
